import Mathlib

/-!
Shallow embedding of the streaming download-extract pipeline in
`crates/binstalk-downloader/src/download.rs`.

Byte chunks, zip causes, remote causes and foreign boxed errors are opaque
to this file; they are modelled as `List Nat` / `Nat` so that equality is
decidable and every definition is executable.
-/

/-- A chunk of bytes yielded by the network stream (`bytes::Bytes`). -/
abbrev Bytes := List Nat

/-- Opaque cause carried by a zip extraction failure (`ZipError`). -/
abbrev ZipError := Nat

/-- Opaque cause carried by a remote client failure (`remote::Error`). -/
abbrev RemoteError := Nat

/-- The kind tag of a generic I/O error (`io::ErrorKind`); `other` mirrors
`io::ErrorKind::Other`, `code n` stands for any of the remaining kinds. -/
inductive IoErrorKind where
  | other
  | code (n : Nat)
deriving DecidableEq

mutual

/-- Mirror of `std::io::Error`: a kind plus an optional boxed inner cause
(`get_ref` / `into_inner`). A plain OS-level error has no inner cause. -/
inductive IoError where
  | mk (kind : IoErrorKind) (inner : Option IoInnerError)

/-- The boxed inner cause of an `io::Error`: either the pipeline's own
`DownloadError` (so `downcast` succeeds) or some other boxed error
(so `downcast` fails). -/
inductive IoInnerError where
  | download (e : DownloadError)
  | foreign (m : Nat)

/-- `download.rs` lines 28-43: the pipeline's precise error taxonomy. -/
inductive DownloadError where
  | Unzip (cause : ZipError)
  | Remote (cause : RemoteError)
  | Io (e : IoError)

end

/-- `download.rs` lines 45-62, `impl From<io::Error> for DownloadError`:
if the generic error carries an inner cause, try to downcast it to a
`DownloadError`; on success return that precise cause, on failure rebuild
an `io::Error` with the same kind around the non-downcastable cause; with
no inner cause, wrap the error as the `Io` variant unchanged. -/
def DownloadError.from_io (err : IoError) : DownloadError :=
  match err with
  | .mk _ (some (.download e)) => e
  | .mk kind (some (.foreign m)) => .Io (.mk kind (some (.foreign m)))
  | .mk kind none => .Io (.mk kind none)

/-- `download.rs` lines 64-71, `impl From<DownloadError> for io::Error`:
the `Io` variant returns its wrapped `io::Error` verbatim; any other
variant is wrapped as an `io::Error` of kind `Other` embedding the whole
`DownloadError` as its inner cause. -/
def DownloadError.into_io : DownloadError → IoError
  | .Io ioError => ioError
  | e => .mk .other (some (.download e))

/-- True exactly when the value is an `Io` variant whose wrapped `io::Error`
itself embeds a `DownloadError` as its inner cause. -/
def has_embedded_download : DownloadError → Bool
  | .Io (.mk _ (some (.download _))) => true
  | _ => false

/-- The fused verifying stream produced by `Download::get_stream`
(`download.rs` lines 142-165). `raw` is the sequence of items the remote
client's stream has yet to yield (each a chunk or a remote failure);
`hasVerifier` records whether a data verifier was attached to the
`Download`; `observed` is the list of chunks the verifier has digested so
far, in arrival order; `terminated` is the state of the final `fuse`. -/
structure VStream where
  raw : List (Except RemoteError Bytes)
  hasVerifier : Bool
  observed : List Bytes
  terminated : Bool

/-- One pull (`StreamExt::next`) on the fused verifying stream. The `fuse`
returns `none` forever once the inner stream has ended, without re-polling
it. Otherwise the mapped closure of `get_stream` runs: a remote failure is
converted by the question-mark operator through `From<remote::Error>`
(the derived `DownloadError::Remote` wrapper) and yielded; a chunk is fed
to the verifier (when one is attached) and then yielded. -/
def VStream.next (s : VStream) : Option (Except DownloadError Bytes) × VStream :=
  if s.terminated then (none, s)
  else
    match s.raw with
    | [] => (none, { s with terminated := true })
    | .error e :: rest => (some (.error (DownloadError.Remote e)), { s with raw := rest })
    | .ok b :: rest =>
        (some (.ok b),
          { s with
            raw := rest
            observed := if s.hasVerifier then s.observed ++ [b] else s.observed })

/-- Pull `n` items from the verifying stream, discarding the results.
Used to model the pulls an extraction strategy performs. -/
def VStream.pullN : Nat → VStream → VStream
  | 0, s => s
  | n + 1, s => VStream.pullN n (VStream.next s).2

/-- The loop body of `consume_stream` (`download.rs` lines 172-182),
recursing over the remaining raw items: `while let Some(res) = next` pull
items; a pulled chunk is digested by the verifier (the pull goes through
the verifying stream) and discarded; a pulled error is logged and the loop
breaks; when the stream ends the fuse marks it terminated. Returns the
final raw items, observed chunks and terminated flag. -/
def consume_loop (hv : Bool) :
    List (Except RemoteError Bytes) → List Bytes →
      List (Except RemoteError Bytes) × List Bytes × Bool
  | [], obs => ([], obs, true)
  | .error _ :: rest, obs => (rest, obs, false)
  | .ok b :: rest, obs => consume_loop hv rest (if hv then obs ++ [b] else obs)

/-- `consume_stream` (`download.rs` lines 172-182) as a state transformer
on the verifying stream: already-terminated streams are left untouched
(it accepts a `FusedStream` precisely because the stream may be already
consumed); otherwise it runs the pull-and-discard loop. -/
def consume_stream (s : VStream) : VStream :=
  if s.terminated then s
  else
    let r := consume_loop s.hasVerifier s.raw s.observed
    ⟨r.1, s.hasVerifier, r.2.1, r.2.2⟩

/-- Fidelity check: `consume_stream` is exactly the source's
`while let Some(res) = stream.next()` loop over `VStream.next`,
breaking at the first pulled error. -/
theorem consume_stream_eq_next_loop (s : VStream) :
    consume_stream s =
      match VStream.next s with
      | (none, s') => s'
      | (some (.error _), s') => s'
      | (some (.ok _), s') => consume_stream s' := by
  obtain ⟨raw, hv, obs, term⟩ := s
  cases term with
  | true => rfl
  | false =>
    cases raw with
    | nil => rfl
    | cons hd tl =>
      cases hd with
      | error e => rfl
      | ok b => simp [consume_stream, VStream.next, consume_loop]

/-- An entry of the extracted-files ledger: a path is tagged as a regular
file, or as a directory with the set of its immediate child names
(modelled as a list). Mirrors `ExtractedFilesEntry` as used by the tests
in `download.rs` lines 299-311. -/
inductive ExtractedFilesEntry where
  | File
  | Dir (children : List String)

/-- Modelled from the spec: the extracted-files ledger of §4.7 (module
`extracted_files` is not part of the shown source; its shape — a map from
path to `ExtractedFilesEntry` — is fixed by the tests in `download.rs`
lines 299-311). Modelled as an association list from path to entry. -/
structure ExtractedFiles where
  entries : List (String × ExtractedFilesEntry)

/-- Modelled from the spec, §4.7: `has_file(path)` is true only if the
path is present in the ledger and tagged `File`. -/
def ExtractedFiles.has_file (ef : ExtractedFiles) (p : String) : Bool :=
  match List.lookup p ef.entries with
  | some .File => true
  | _ => false

/-- Modelled from the spec, §4.7: `get_children(path)` (named `get_dir` in
the tests) returns the child-name set only if the path is present and
tagged `Directory`, else it is absent. -/
def ExtractedFiles.get_dir (ef : ExtractedFiles) (p : String) : Option (List String) :=
  match List.lookup p ef.entries with
  | some (.Dir children) => some children
  | _ => none

/-- The tar-family compression variants (`TarBasedFmt`): plain tar or tar
wrapped in one of the streaming compressors. -/
inductive TarBasedFmt where
  | tar
  | tbz2
  | tgz
  | txz
  | tzstd
deriving DecidableEq, Fintype

/-- The declared package formats (`PkgFmt`): the tar family, zip, or a
raw binary. -/
inductive PkgFmt where
  | tar
  | tbz2
  | tgz
  | txz
  | tzstd
  | zip
  | bin
deriving DecidableEq, Fintype

/-- The three-way decomposition of a declared format
(`PkgFmtDecomposed`): a tar variant, a raw binary, or a zip. -/
inductive PkgFmtDecomposed where
  | Tar (f : TarBasedFmt)
  | Bin
  | Zip
deriving DecidableEq

/-- Modelled from the spec, §6: the format classifier (crate
`binstalk_types`, not part of the shown source) is a total function from
the declared format to its three-way decomposition. -/
def PkgFmt.decompose : PkgFmt → PkgFmtDecomposed
  | .tar => .Tar .tar
  | .tbz2 => .Tar .tbz2
  | .tgz => .Tar .tgz
  | .txz => .Tar .txz
  | .tzstd => .Tar .tzstd
  | .zip => .Zip
  | .bin => .Bin

/-- The three extraction strategies `Download::and_extract` can invoke:
`extract_tar_based_stream` with the compression variant, `extract_bin`,
or `extract_zip`. -/
inductive ExtractionStrategy where
  | tarBased (f : TarBasedFmt)
  | bin
  | zip
deriving DecidableEq

/-- `download.rs` lines 236-242: the strategy selected by the
`fmt.decompose()` match inside `Download::and_extract`. The match has
exactly three arms and no fallback. -/
def dispatch_strategy (fmt : PkgFmt) : ExtractionStrategy :=
  match fmt.decompose with
  | .Tar f => .tarBased f
  | .Bin => .bin
  | .Zip => .zip

/-- True when the dispatcher selects the tar-family strategy. -/
def uses_tar (fmt : PkgFmt) : Bool :=
  match dispatch_strategy fmt with
  | .tarBased _ => true
  | _ => false

/-- True when the dispatcher selects the raw-binary strategy. -/
def uses_bin (fmt : PkgFmt) : Bool :=
  match dispatch_strategy fmt with
  | .bin => true
  | _ => false

/-- True when the dispatcher selects the zip strategy. -/
def uses_zip (fmt : PkgFmt) : Bool :=
  match dispatch_strategy fmt with
  | .zip => true
  | _ => false

/-- `Download::and_extract` (`download.rs` lines 221-259), with the
selected extraction strategy abstracted by its observable interaction:
it pulls `pulls` items from the verifying stream (module
`async_extracter` is not part of the shown source) and returns `res`.
The orchestration is the source's: on `Ok` the extracted files are
returned; on `Err`, if a data verifier was attached
(`has_data_verifier`), the stream is drained by `consume_stream` and
then the original error is returned, otherwise the error is returned at
once and the stream is left exactly as the strategy left it. -/
def and_extract (s0 : VStream) (pulls : Nat)
    (res : Except DownloadError ExtractedFiles) :
    Except DownloadError ExtractedFiles × VStream :=
  let s1 := VStream.pullN pulls s0
  match res with
  | .ok extracted_files => (.ok extracted_files, s1)
  | .error err => (.error err, if s0.hasVerifier then consume_stream s1 else s1)

/-- `Download::and_visit_tar` (`download.rs` lines 193-215), with
`extract_tar_based_stream_and_visit` abstracted the same way as in
`and_extract`: visiting pulls `pulls` items from the same verifying
stream and returns `res`; on failure the same `has_data_verifier`-guarded
`consume_stream` drain runs before the error is returned. -/
def and_visit_tar (s0 : VStream) (pulls : Nat)
    (res : Except DownloadError Unit) :
    Except DownloadError Unit × VStream :=
  let s1 := VStream.pullN pulls s0
  match res with
  | .ok _ => (.ok (), s1)
  | .error err => (.error err, if s0.hasVerifier then consume_stream s1 else s1)

/-- Pulling a prefix of successful chunks feeds exactly those chunks to the
attached verifier, in order, and leaves the rest of the stream untouched. -/
theorem pullN_map_ok (cs : List Bytes) (rest : List (Except RemoteError Bytes))
    (obs : List Bytes) :
    VStream.pullN cs.length ⟨cs.map .ok ++ rest, true, obs, false⟩ =
      ⟨rest, true, obs ++ cs, false⟩ := by
  induction cs generalizing obs with
  | nil => simp [VStream.pullN]
  | cons b cs ih =>
    have h1 : VStream.pullN (b :: cs).length ⟨(b :: cs).map .ok ++ rest, true, obs, false⟩ =
        VStream.pullN cs.length ⟨cs.map .ok ++ rest, true, obs ++ [b], false⟩ := rfl
    rw [h1, ih (obs ++ [b])]
    simp

/-- Draining a run of successful chunks feeds them all to the verifier and
ends with the fuse terminated. -/
theorem consume_loop_all_ok (cs : List Bytes) (obs : List Bytes) :
    consume_loop true (cs.map .ok) obs = ([], obs ++ cs, true) := by
  induction cs generalizing obs with
  | nil => simp [consume_loop]
  | cons b cs ih =>
    simp only [List.map_cons, consume_loop, if_pos]
    rw [ih (obs ++ [b])]
    simp

/-- Draining stops at the first pulled error: the chunks before it are fed
to the verifier, the error item is pulled and discarded, and everything
after it is left unpulled, with the stream not terminated. -/
theorem consume_loop_stops_at_error (cs : List Bytes) (e : RemoteError)
    (rest : List (Except RemoteError Bytes)) (obs : List Bytes) :
    consume_loop true (cs.map .ok ++ .error e :: rest) obs =
      (rest, obs ++ cs, false) := by
  induction cs generalizing obs with
  | nil => simp [consume_loop]
  | cons b cs ih =>
    have h1 : consume_loop true ((b :: cs).map .ok ++ .error e :: rest) obs =
        consume_loop true (cs.map .ok ++ .error e :: rest) (obs ++ [b]) := rfl
    rw [h1, ih (obs ++ [b])]
    simp

/-- Claim C1: the two error conversions are NOT exact inverses on every
precise `DownloadError`: for an `Io` variant whose wrapped `io::Error`
embeds a `DownloadError` cause, wrap-to-generic then unwrap-to-precise
returns the embedded cause instead of the original `Io` value. Concrete
counterexample: `Io(io::Error(Other, cause = Unzip 0))` round-trips to
`Unzip 0`. -/
theorem error_roundtrip_nested_cex :
    DownloadError.from_io (DownloadError.into_io
        (DownloadError.Io (IoError.mk IoErrorKind.other
          (some (IoInnerError.download (DownloadError.Unzip 0)))))) ≠
      DownloadError.Io (IoError.mk IoErrorKind.other
        (some (IoInnerError.download (DownloadError.Unzip 0)))) := by
  intro h
  exact DownloadError.noConfusion h

/-- Claim C1 (amended): for every precise `DownloadError` except an `Io`
variant whose wrapped `io::Error` itself embeds a `DownloadError` cause,
converting to a generic `io::Error` and back reproduces the value
exactly; and for every plain OS-level `io::Error` carrying no embedded
cause, converting to a `DownloadError` and back reproduces the same
`io::Error` (in particular the same kind). -/
theorem error_roundtrip_amended :
    (∀ d : DownloadError, has_embedded_download d = false →
        DownloadError.from_io (DownloadError.into_io d) = d) ∧
    (∀ k : IoErrorKind,
        DownloadError.into_io (DownloadError.from_io (IoError.mk k none)) =
          IoError.mk k none) := by
  constructor
  · intro d h
    match d with
    | .Unzip _ => rfl
    | .Remote _ => rfl
    | .Io (.mk _ none) => rfl
    | .Io (.mk _ (some (.foreign _))) => rfl
    | .Io (.mk _ (some (.download _))) => simp [has_embedded_download] at h
  · intro _
    rfl

/-- Witness for the amended claim C1 at the concrete value `Unzip 3`. -/
theorem error_roundtrip_amended_witness :
    DownloadError.from_io (DownloadError.into_io (DownloadError.Unzip 3)) =
      DownloadError.Unzip 3 :=
  error_roundtrip_amended.1 (DownloadError.Unzip 3) rfl

/-- Claim C8: the generic-to-precise conversion unwraps an embedded
`DownloadError` cause, returns a generic failure with a non-downcastable
cause as the `Io` variant preserving its kind, and returns a causeless
generic failure as the `Io` variant unchanged; conversely the
precise-to-generic conversion returns the `io::Error` wrapped by an `Io`
variant verbatim and wraps every other variant as an `io::Error` of kind
`Other` embedding the original as its cause. -/
theorem error_conversion_spec :
    (∀ (k : IoErrorKind) (e : DownloadError),
        DownloadError.from_io (IoError.mk k (some (IoInnerError.download e))) = e) ∧
    (∀ (k : IoErrorKind) (m : Nat),
        DownloadError.from_io (IoError.mk k (some (IoInnerError.foreign m))) =
          DownloadError.Io (IoError.mk k (some (IoInnerError.foreign m)))) ∧
    (∀ k : IoErrorKind,
        DownloadError.from_io (IoError.mk k none) =
          DownloadError.Io (IoError.mk k none)) ∧
    (∀ e : IoError, DownloadError.into_io (DownloadError.Io e) = e) ∧
    (∀ c : ZipError,
        DownloadError.into_io (DownloadError.Unzip c) =
          IoError.mk IoErrorKind.other
            (some (IoInnerError.download (DownloadError.Unzip c)))) ∧
    (∀ c : RemoteError,
        DownloadError.into_io (DownloadError.Remote c) =
          IoError.mk IoErrorKind.other
            (some (IoInnerError.download (DownloadError.Remote c)))) :=
  ⟨fun _ _ => rfl, fun _ _ => rfl, fun _ => rfl, fun _ => rfl,
    fun _ => rfl, fun _ => rfl⟩

/-- A terminated (exhausted) fused stream yields `none` and is untouched. -/
theorem next_of_terminated (s : VStream) (h : s.terminated = true) :
    VStream.next s = (none, s) := by
  simp [VStream.next, h]

/-- A successful pull with a verifier attached appends exactly the pulled
chunk to the verifier's observations, and that chunk is the head of the
underlying stream. -/
theorem next_ok_verifier (s s' : VStream) (b : Bytes) (hv : s.hasVerifier = true)
    (h : VStream.next s = (some (.ok b), s')) :
    s'.observed = s.observed ++ [b] ∧ s.raw.head? = some (.ok b) ∧
      s'.terminated = false := by
  obtain ⟨raw, hvb, obs, term⟩ := s
  replace hv : hvb = true := hv
  subst hv
  cases term with
  | true => simp [VStream.next] at h
  | false =>
    cases raw with
    | nil => simp [VStream.next] at h
    | cons hd tl =>
      cases hd with
      | error e => simp [VStream.next] at h
      | ok c =>
        simp only [VStream.next] at h
        simp at h
        obtain ⟨rfl, rfl⟩ := h
        simp

/-- A successful pull with no verifier attached leaves the observation list
unchanged: the verifier is never invoked. -/
theorem next_ok_no_verifier (s s' : VStream) (b : Bytes) (hv : s.hasVerifier = false)
    (h : VStream.next s = (some (.ok b), s')) :
    s'.observed = s.observed := by
  obtain ⟨raw, hvb, obs, term⟩ := s
  replace hv : hvb = false := hv
  subst hv
  cases term with
  | true => simp [VStream.next] at h
  | false =>
    cases raw with
    | nil => simp [VStream.next] at h
    | cons hd tl =>
      cases hd with
      | error e => simp [VStream.next] at h
      | ok c =>
        simp only [VStream.next] at h
        simp at h
        obtain ⟨rfl, rfl⟩ := h
        simp

/-- A pull that yields an error leaves the observation list unchanged (the
verifier is not invoked), does not terminate the stream, and the yielded
error is the `Remote`-wrapped head failure of the underlying stream. -/
theorem next_error (s s' : VStream) (e : DownloadError)
    (h : VStream.next s = (some (.error e), s')) :
    s'.observed = s.observed ∧ s'.terminated = false ∧
      ∃ re, e = DownloadError.Remote re ∧ s.raw.head? = some (.error re) := by
  obtain ⟨raw, hvb, obs, term⟩ := s
  cases term with
  | true => simp [VStream.next] at h
  | false =>
    cases raw with
    | nil => simp [VStream.next] at h
    | cons hd tl =>
      cases hd with
      | ok c => simp [VStream.next] at h
      | error re =>
        simp only [VStream.next] at h
        simp at h
        obtain ⟨rfl, rfl⟩ := h
        simp

/-- A pull that yields `none` terminates the stream and changes nothing
else: neither the underlying items nor the verifier's observations. -/
theorem next_none (s : VStream) (h : (VStream.next s).1 = none) :
    (VStream.next s).2.terminated = true ∧ (VStream.next s).2.raw = s.raw ∧
      (VStream.next s).2.observed = s.observed := by
  obtain ⟨raw, hvb, obs, term⟩ := s
  cases term with
  | true => simp [VStream.next]
  | false =>
    cases raw with
    | nil => simp [VStream.next]
    | cons hd tl =>
      cases hd with
      | ok c => simp [VStream.next] at h
      | error re => simp [VStream.next] at h

/-- Claim C4: on each pull from the verifying stream, a successfully
yielded chunk is first fed to the attached verifier (exactly that chunk,
in arrival order: it is the head of the underlying stream and is appended
to the observations), a successful pull with no verifier updates nothing,
and a pull that yields an error passes the underlying remote failure
through (wrapped by the `From` conversion the question-mark operator
applies) without invoking the verifier. -/
theorem verifying_adapter_next_spec : ∀ (s s' : VStream) (b : Bytes) (e : DownloadError),
    (s.hasVerifier = true → VStream.next s = (some (.ok b), s') →
        s'.observed = s.observed ++ [b] ∧ s.raw.head? = some (.ok b)) ∧
    (s.hasVerifier = false → VStream.next s = (some (.ok b), s') →
        s'.observed = s.observed) ∧
    (VStream.next s = (some (.error e), s') →
        s'.observed = s.observed ∧
          ∃ re, e = DownloadError.Remote re ∧ s.raw.head? = some (.error re)) := by
  intro s s' b e
  refine ⟨fun hv h => ?_, fun hv h => next_ok_no_verifier s s' b hv h, fun h => ?_⟩
  · obtain ⟨h1, h2, _⟩ := next_ok_verifier s s' b hv h
    exact ⟨h1, h2⟩
  · obtain ⟨h1, _, h3⟩ := next_error s s' e h
    exact ⟨h1, h3⟩

/-- Witness for claim C4 at a concrete one-chunk stream. -/
theorem verifying_adapter_next_witness :
    (⟨[], true, [[5]], false⟩ : VStream).observed =
      (⟨[.ok [5]], true, [], false⟩ : VStream).observed ++ [[5]] :=
  ((verifying_adapter_next_spec ⟨[.ok [5]], true, [], false⟩
      ⟨[], true, [[5]], false⟩ [5] (DownloadError.Remote 0)).1 rfl rfl).1

/-- Claim C5: the fused verifying stream distinguishes terminal exhaustion
from a yielded error. A terminated stream yields `none` with a completely
unchanged state (no re-entry into the underlying stream, no verifier
call); any pull that yields `none` leaves the stream terminated, with its
items and observations untouched, so every later pull again yields `none`;
and a pull that yields an error leaves the stream not terminated. -/
theorem fused_stream_exhaustion_spec : ∀ (s s' : VStream) (e : DownloadError),
    (s.terminated = true → VStream.next s = (none, s)) ∧
    ((VStream.next s).1 = none →
        (VStream.next s).2.terminated = true ∧
          (VStream.next s).2.raw = s.raw ∧
          (VStream.next s).2.observed = s.observed ∧
          VStream.next ((VStream.next s).2) = (none, (VStream.next s).2)) ∧
    (VStream.next s = (some (.error e), s') → s'.terminated = false) := by
  intro s s' e
  refine ⟨fun h => next_of_terminated s h, fun h => ?_, fun h => (next_error s s' e h).2.1⟩
  obtain ⟨h1, h2, h3⟩ := next_none s h
  exact ⟨h1, h2, h3, next_of_terminated _ h1⟩

/-- Witness for claim C5 at a concrete already-exhausted stream. -/
theorem fused_stream_exhaustion_witness :
    VStream.next ⟨[.ok [2]], true, [], true⟩ = (none, ⟨[.ok [2]], true, [], true⟩) :=
  (fused_stream_exhaustion_spec ⟨[.ok [2]], true, [], true⟩
      ⟨[.ok [2]], true, [], true⟩ (DownloadError.Remote 0)).1 rfl

/-- Claim C2: with a verifier attached, when the stream yields `N`
successful chunks pulled by the extraction strategy, extraction then
fails, and `M` more successful chunks remain before end-of-stream, both
terminal operations return the extraction error, yet the verifier has
observed all `N + M` chunks in stream order. -/
theorem verifier_observes_all_chunks_on_failure (cs ds : List Bytes) (e : DownloadError) :
    (and_extract ⟨(cs ++ ds).map .ok, true, [], false⟩ cs.length (.error e)).1 =
        .error e ∧
    (and_extract ⟨(cs ++ ds).map .ok, true, [], false⟩ cs.length (.error e)).2.observed =
        cs ++ ds ∧
    (and_visit_tar ⟨(cs ++ ds).map .ok, true, [], false⟩ cs.length (.error e)).1 =
        .error e ∧
    (and_visit_tar ⟨(cs ++ ds).map .ok, true, [], false⟩ cs.length (.error e)).2.observed =
        cs ++ ds := by
  have h1 : VStream.pullN cs.length ⟨cs.map .ok ++ ds.map .ok, true, [], false⟩ =
      ⟨ds.map .ok, true, cs, false⟩ := by
    have h := pullN_map_ok cs (ds.map .ok) []
    simpa using h
  have h2 : consume_stream ⟨ds.map .ok, true, cs, false⟩ = ⟨[], true, cs ++ ds, true⟩ := by
    simp [consume_stream, consume_loop_all_ok]
  refine ⟨?_, ?_, ?_, ?_⟩ <;>
    simp [and_extract, and_visit_tar, List.map_append, h1, h2]

/-- Claim C3 (counterexample): extraction fails with a verifier attached
while the remaining stream holds a remote failure followed by one more
chunk; the drain stops at the error item instead of continuing to true
exhaustion — the trailing chunk is left unpulled, the stream is not
terminated and the verifier never observes that chunk. -/
theorem drain_skips_trailing_items_cex :
    (and_extract ⟨[.error 7, .ok [1]], true, [], false⟩ 0
        (.error (DownloadError.Unzip 0))).2.raw = [.ok [1]] ∧
    (and_extract ⟨[.error 7, .ok [1]], true, [], false⟩ 0
        (.error (DownloadError.Unzip 0))).2.terminated = false ∧
    (and_extract ⟨[.error 7, .ok [1]], true, [], false⟩ 0
        (.error (DownloadError.Unzip 0))).2.observed = [] :=
  ⟨rfl, rfl, rfl⟩

/-- Claim C3 (amended): when extraction fails and a verifier was attached,
the orchestrator drains the stream with `consume_stream` and then returns
the original error; the drain pulls and discards the remaining items
(each chunk still feeding the verifier) until the underlying stream is
truly exhausted, except that it stops early at the first pulled item that
is an error, discarding that error and leaving any later items unpulled. -/
theorem drain_on_failure_amended :
    (∀ (s0 : VStream) (pulls : Nat) (e : DownloadError), s0.hasVerifier = true →
        and_extract s0 pulls (.error e) =
          (.error e, consume_stream (VStream.pullN pulls s0))) ∧
    (∀ (cs obs : List Bytes),
        consume_stream ⟨cs.map .ok, true, obs, false⟩ = ⟨[], true, obs ++ cs, true⟩) ∧
    (∀ (cs : List Bytes) (e : RemoteError) (rest : List (Except RemoteError Bytes))
        (obs : List Bytes),
        consume_stream ⟨cs.map .ok ++ .error e :: rest, true, obs, false⟩ =
          ⟨rest, true, obs ++ cs, false⟩) := by
  refine ⟨fun s0 pulls e hv => ?_, fun cs obs => ?_, fun cs e rest obs => ?_⟩
  · simp [and_extract, hv]
  · simp [consume_stream, consume_loop_all_ok]
  · simp [consume_stream, consume_loop_stops_at_error]

/-- Witness for the amended claim C3 at a concrete empty stream. -/
theorem drain_on_failure_amended_witness :
    and_extract ⟨[], true, [], false⟩ 0 (.error (DownloadError.Unzip 1)) =
      (.error (DownloadError.Unzip 1),
        consume_stream (VStream.pullN 0 ⟨[], true, [], false⟩)) :=
  drain_on_failure_amended.1 ⟨[], true, [], false⟩ 0 (DownloadError.Unzip 1) rfl

/-- Claim C6: when extraction fails and no verifier was attached, no drain
is performed: both terminal operations return the error at once and the
stream is left exactly as the extraction strategy left it, with no
further pulls against the underlying source. -/
theorem no_drain_without_verifier :
    ∀ (raw : List (Except RemoteError Bytes)) (obs : List Bytes) (t : Bool)
      (pulls : Nat) (e : DownloadError),
    and_extract ⟨raw, false, obs, t⟩ pulls (.error e) =
        (.error e, VStream.pullN pulls ⟨raw, false, obs, t⟩) ∧
    and_visit_tar ⟨raw, false, obs, t⟩ pulls (.error e) =
        (.error e, VStream.pullN pulls ⟨raw, false, obs, t⟩) := by
  intro raw obs t pulls e
  exact ⟨rfl, rfl⟩

/-- Claim C7: for every declared package format, extract-to-disk selects
exactly one of the three extraction strategies (tar-family with its
compression variant, zip, or raw binary), the selection follows the
format's decomposition with no fallback, and it is determined solely by
that decomposition. -/
theorem dispatch_exactly_one : ∀ fmt : PkgFmt,
    ((uses_tar fmt).toNat + (uses_bin fmt).toNat + (uses_zip fmt).toNat = 1) ∧
    (∀ t : TarBasedFmt, fmt.decompose = PkgFmtDecomposed.Tar t →
        dispatch_strategy fmt = ExtractionStrategy.tarBased t) ∧
    (fmt.decompose = PkgFmtDecomposed.Bin →
        dispatch_strategy fmt = ExtractionStrategy.bin) ∧
    (fmt.decompose = PkgFmtDecomposed.Zip →
        dispatch_strategy fmt = ExtractionStrategy.zip) ∧
    (∀ g : PkgFmt, fmt.decompose = g.decompose →
        dispatch_strategy fmt = dispatch_strategy g) := by
  decide

/-- Witness for claim C7 at the concrete format `tgz`. -/
theorem dispatch_exactly_one_witness :
    dispatch_strategy PkgFmt.tgz = ExtractionStrategy.tarBased TarBasedFmt.tgz :=
  (dispatch_exactly_one PkgFmt.tgz).2.1 TarBasedFmt.tgz rfl

/-- Claim C9: every recorded ledger entry is tagged exactly one of `File`
or `Dir`, and `has_file` is true precisely for a path recorded with the
`File` tag: it is false for a `Dir`-tagged path and for an unrecorded
path. -/
theorem has_file_spec : ∀ (ef : ExtractedFiles) (p : String),
    (ef.has_file p = true ↔
        List.lookup p ef.entries = some ExtractedFilesEntry.File) ∧
    (∀ children, List.lookup p ef.entries = some (ExtractedFilesEntry.Dir children) →
        ef.has_file p = false) ∧
    (List.lookup p ef.entries = none → ef.has_file p = false) ∧
    (∀ e : ExtractedFilesEntry,
        (e = ExtractedFilesEntry.File ∨ ∃ c, e = ExtractedFilesEntry.Dir c) ∧
          ¬(e = ExtractedFilesEntry.File ∧ ∃ c, e = ExtractedFilesEntry.Dir c)) := by
  intro ef p
  refine ⟨?_, ?_, ?_, ?_⟩
  · cases h : List.lookup p ef.entries with
    | none => simp [ExtractedFiles.has_file, h]
    | some entry =>
      cases entry with
      | File => simp [ExtractedFiles.has_file, h]
      | Dir children => simp [ExtractedFiles.has_file, h]
  · intro children h
    simp [ExtractedFiles.has_file, h]
  · intro h
    simp [ExtractedFiles.has_file, h]
  · intro entry
    cases entry with
    | File => simp
    | Dir children => simp

/-- Witness for claim C9: `has_file` on the empty ledger. -/
theorem has_file_witness : ExtractedFiles.has_file ⟨[]⟩ "x" = false :=
  (has_file_spec ⟨[]⟩ "x").2.2.1 rfl

/-- Claim C10: in visit-as-tar mode an attached verifier is not ignored.
Every chunk successfully pulled from the verifying stream is still fed to
the verifier in arrival order, and when visiting fails with a verifier
attached, `and_visit_tar` returns the error after leaving the stream in
exactly the same drained state as disk-mode `and_extract` does. -/
theorem visit_tar_verifier_spec : ∀ (s s' : VStream) (b : Bytes),
    (s.hasVerifier = true → VStream.next s = (some (.ok b), s') →
        s'.observed = s.observed ++ [b]) ∧
    (∀ (raw : List (Except RemoteError Bytes)) (obs : List Bytes)
        (pulls : Nat) (e : DownloadError),
        (and_visit_tar ⟨raw, true, obs, false⟩ pulls (.error e)).1 = .error e ∧
        (and_visit_tar ⟨raw, true, obs, false⟩ pulls (.error e)).2 =
          (and_extract ⟨raw, true, obs, false⟩ pulls (.error e)).2) := by
  intro s s' b
  refine ⟨fun hv h => (next_ok_verifier s s' b hv h).1, fun raw obs pulls e => ⟨rfl, rfl⟩⟩

/-- Witness for claim C10 at a concrete one-chunk stream. -/
theorem visit_tar_verifier_witness :
    (⟨[], true, [[9]], false⟩ : VStream).observed =
      (⟨[.ok [9]], true, [], false⟩ : VStream).observed ++ [[9]] :=
  (visit_tar_verifier_spec ⟨[.ok [9]], true, [], false⟩
      ⟨[], true, [[9]], false⟩ [9]).1 rfl rfl
